import Mathlib

/-!
Verification of the BlackRoad agents job / self-healing core.

This file embeds, in Lean, the parts of the repository that the claims
C1..C10 are about:

* the decision-tree evaluator and the standard decision trees of the
  Self-Healing Engine (`src/durable-objects/index.js`, second document:
  `DecisionNode.evaluate`, `SelfHealingEngine._buildDecisionTrees`);
* the Self-Healing Engine's issue handling and action execution
  (`SelfHealingEngine.handleIssue`, `_executeAction`, `_scheduleRetry`,
  `_markResolved`, `_createLearning`, `_escalateIssue`, `_resetState`,
  `handleDeadLetter`) and the `SelfHealer` durable object's
  `escalateIssue` endpoint;
* the `JobOrchestrator` durable object (`cancelJob`, `runJob`, `alarm`)
  and the worker API's DELETE handler `cancelJob`;
* the `JobScheduler`'s `updateJob` / `processQueuedJob`, the worker
  orchestrator's `processJob`, and the backoff helper `retryWithBackoff`
  from `src/utils/helpers.js`.

JavaScript numbers that are used as integers are modelled as `Nat`;
timestamps (`new Date()`, `Date.now()`) are passed in as an explicit
`now : Nat` argument; the impure id generator `generateId` is modelled by
a counter threaded through the state; asynchronous I/O against the KV
stores is modelled by explicit association lists.  Actions inside the
decision trees are total Lean functions: every action literal in the
source returns normally, so the `try/catch` around action execution
(which would turn a thrown error into `success: false`) is never hit by
the trees that exist in the repository.
-/

/-! ## Key/value store model

The durable-object storage and the KV namespaces expose get/put/delete.
A store is modelled as an association list where `put` prepends and `get`
returns the most recent binding, and `delete` removes all bindings. -/

def kvGet {α : Type} : List (String × α) → String → Option α
  | [], _ => Option.none
  | (k, v) :: rest, key => if k = key then Option.some v else kvGet rest key

def kvPut {α : Type} (store : List (String × α)) (key : String) (value : α) :
    List (String × α) :=
  (key, value) :: store

def kvDel {α : Type} (store : List (String × α)) (key : String) :
    List (String × α) :=
  store.filter (fun p => p.1 ≠ key)

theorem kvGet_kvPut {α : Type} (store : List (String × α)) (key : String) (v : α) :
    kvGet (kvPut store key v) key = some v := by
  simp [kvGet, kvPut]

/-! ## Substring matching

JavaScript's `String.prototype.includes`, used by the sync-failure
decision-tree conditions (`ctx.error?.includes('rate limit')` etc.). -/

def charsHavePrefix : List Char → List Char → Bool
  | [], _ => true
  | _ :: _, [] => false
  | a :: as, b :: bs => a = b && charsHavePrefix as bs

def charsContain (pat : List Char) : List Char → Bool
  | [] => charsHavePrefix pat []
  | c :: rest => charsHavePrefix pat (c :: rest) || charsContain pat rest

/-- JavaScript `s.includes(pat)`. -/
def strIncludes (s pat : String) : Bool :=
  charsContain pat.toList s.toList

/-- JavaScript `o?.includes(pat)` where `o` may be `undefined`:
optional chaining yields `undefined`, which is falsy. -/
def optIncludes (o : Option String) (pat : String) : Bool :=
  match o with
  | Option.some s => strIncludes s pat
  | Option.none => false

/-! ## Severity levels (`Severity` in `durable-objects/index.js`) -/

def Severity.LOW : Nat := 1
def Severity.MEDIUM : Nat := 2
def Severity.HIGH : Nat := 3
def Severity.CRITICAL : Nat := 4

/-! ## Healing actions (`HealingAction`) -/

inductive HealingAction where
  | retry
  | skip
  | escalate
  | rollback
  | reset
  | notify
  | learn
deriving DecidableEq, Repr

/-! ## Issue contexts

The JS `issue.context` is a dynamic object; the decision-tree predicates
read `attempts`, `severity`, `consecutiveFailures`, `driftScore` and
`error` from it, and the scan/dead-letter constructors also store
`jobId`, `jobType`, `messageId`, `body`, `retryCount`.  A missing numeric
field compares as `undefined` (all comparisons false); the fields a
given tree reads are always set by the corresponding issue constructor,
so numeric fields are modelled as `Nat` with default `0`, and `error`
(read through optional chaining) as `Option String`. -/

structure IssueContext where
  attempts : Nat := 0
  severity : Nat := 0
  consecutiveFailures : Nat := 0
  driftScore : Nat := 0
  error : Option String := none
  jobId : Option String := none
  jobType : Option String := none
  messageId : Option String := none
  body : Option String := none
  retryCount : Nat := 0
  repo : Option String := none
deriving DecidableEq, Repr

/-- Result object returned by a decision-node action, e.g.
`{ success: true, action: HealingAction.RETRY, message, delay }`. -/
structure ActionResult where
  success : Bool
  action : HealingAction
  message : String
  delay : Option Nat := none
deriving DecidableEq, Repr

/-- Result of `DecisionNode.evaluate`: `{ matched, result }`. -/
structure EvalResult where
  matched : Bool
  result : Option ActionResult := none
deriving DecidableEq, Repr

/-- A decision-tree node (`class DecisionNode`): a name, a condition
(defaulting to `() => true` at every construction site that omits it),
an optional action, ordered children, and an optional fallback node. -/
inductive DecisionNode : Type where
  | mk (name : String) (condition : IssueContext → Bool)
       (action : Option (IssueContext → ActionResult))
       (children : List DecisionNode) (fallback : Option DecisionNode)

mutual

/-- `DecisionNode.evaluate(context)`: check the condition (false means
`{matched: false}`); execute the action if present and return it on
success; otherwise walk the children in order and return the first
matching child's result; if none matches, evaluate the fallback if
present; otherwise return `{matched: !!result, result}` where `result`
is the (failed) action result or `null`.  The children loop followed by
the fallback return is folded here as `getD` of the first child match
with the fallback outcome as the default; the results coincide. -/
def DecisionNode.evaluate : DecisionNode → IssueContext → EvalResult
  | .mk _ cond act children fb, ctx =>
    if cond ctx then
      match act.map (fun a => a ctx) with
      | Option.some r =>
        if r.success then { matched := true, result := some r }
        else (firstChildMatch children ctx).getD (evalFallback (Option.some r) fb ctx)
      | Option.none =>
        (firstChildMatch children ctx).getD (evalFallback Option.none fb ctx)
    else { matched := false, result := none }
termination_by n _ => 2 * sizeOf n

/-- Tail of `DecisionNode.evaluate` once no child has matched: evaluate
the fallback when present, else return `{matched: !!result, result}`. -/
def evalFallback : Option ActionResult → Option DecisionNode → IssueContext → EvalResult
  | _, Option.some f, ctx => f.evaluate ctx
  | r, Option.none, _ => { matched := r.isSome, result := r }
termination_by _ fb _ => 2 * sizeOf fb + 1

/-- The `for (const child of this.children)` loop of
`DecisionNode.evaluate`: the first child whose evaluation reports
`matched` wins. -/
def firstChildMatch : List DecisionNode → IssueContext → Option EvalResult
  | [], _ => Option.none
  | c :: rest, ctx =>
    let r := c.evaluate ctx
    if r.matched then Option.some r else firstChildMatch rest ctx
termination_by l _ => 2 * sizeOf l

end

/-! ## The standard decision trees (`SelfHealingEngine._buildDecisionTrees`) -/

/-- The `job_failure` tree: `transient_error` (attempts < 3 → RETRY with
delay 2^attempts * 1000 ms), `persistent_error` (attempts >= 3 and
severity < CRITICAL → SKIP), fallback `escalate` (ESCALATE). -/
def jobFailureTree : DecisionNode :=
  .mk "job_failure_handler" (fun _ => true) Option.none
    [.mk "transient_error" (fun ctx => ctx.attempts < 3)
        (Option.some fun ctx =>
          { success := true, action := .retry, message := "Scheduling retry",
            delay := some (2 ^ ctx.attempts * 1000) })
        [] Option.none,
     .mk "persistent_error"
        (fun ctx => decide (3 ≤ ctx.attempts) && decide (ctx.severity < Severity.CRITICAL))
        (Option.some fun _ =>
          { success := true, action := .skip,
            message := "Skipping after max retries, creating learning" })
        [] Option.none]
    (Option.some (.mk "escalate" (fun _ => true)
        (Option.some fun _ =>
          { success := true, action := .escalate,
            message := "Escalating to human attention" })
        [] Option.none))

/-- The `cron_failure` tree: LEARN below three consecutive failures,
ESCALATE from three on; it has no fallback. -/
def cronFailureTree : DecisionNode :=
  .mk "cron_failure_handler" (fun _ => true) Option.none
    [.mk "temporary_issue" (fun ctx => ctx.consecutiveFailures < 3)
        (Option.some fun _ =>
          { success := true, action := .learn,
            message := "Logging failure for pattern analysis" })
        [] Option.none,
     .mk "systematic_issue" (fun ctx => decide (3 ≤ ctx.consecutiveFailures))
        (Option.some fun _ =>
          { success := true, action := .escalate,
            message := "Multiple consecutive failures - needs investigation" })
        [] Option.none]
    Option.none

/-- The `sync_failure` tree: `rate_limited` (error contains "rate limit"
→ RETRY with 60000 ms delay), `network_error` ("network" or "timeout" →
RETRY with 5000 ms delay), `auth_error` ("401" or "403" → ESCALATE),
fallback `unknown_sync_error` (LEARN). -/
def syncFailureTree : DecisionNode :=
  .mk "sync_failure_handler" (fun _ => true) Option.none
    [.mk "rate_limited" (fun ctx => optIncludes ctx.error "rate limit")
        (Option.some fun _ =>
          { success := true, action := .retry,
            message := "Rate limited - backing off", delay := some 60000 })
        [] Option.none,
     .mk "network_error"
        (fun ctx => optIncludes ctx.error "network" || optIncludes ctx.error "timeout")
        (Option.some fun _ =>
          { success := true, action := .retry,
            message := "Network error - retrying with backoff", delay := some 5000 })
        [] Option.none,
     .mk "auth_error"
        (fun ctx => optIncludes ctx.error "401" || optIncludes ctx.error "403")
        (Option.some fun _ =>
          { success := true, action := .escalate,
            message := "Authentication error - needs manual intervention" })
        [] Option.none]
    (Option.some (.mk "unknown_sync_error" (fun _ => true)
        (Option.some fun _ =>
          { success := true, action := .learn,
            message := "Unknown error - learning for future" })
        [] Option.none))

/-- The `cohesion_drift` tree: NOTIFY below 20, LEARN from 20 below 50,
ESCALATE from 50; no fallback. -/
def cohesionDriftTree : DecisionNode :=
  .mk "cohesion_drift_handler" (fun _ => true) Option.none
    [.mk "minor_drift" (fun ctx => ctx.driftScore < 20)
        (Option.some fun _ =>
          { success := true, action := .notify,
            message := "Minor cohesion drift detected" })
        [] Option.none,
     .mk "significant_drift"
        (fun ctx => decide (20 ≤ ctx.driftScore) && decide (ctx.driftScore < 50))
        (Option.some fun _ =>
          { success := true, action := .learn,
            message := "Significant drift - creating recommendations" })
        [] Option.none,
     .mk "critical_drift" (fun ctx => decide (50 ≤ ctx.driftScore))
        (Option.some fun _ =>
          { success := true, action := .escalate,
            message := "Critical cohesion drift - immediate attention needed" })
        [] Option.none]
    Option.none

/-! ## General characterizations of the job-failure and sync-failure trees -/

/-- Closed-form behaviour of the job-failure tree on any context. -/
theorem evaluate_jobFailureTree (ctx : IssueContext) :
    DecisionNode.evaluate jobFailureTree ctx =
      (if ctx.attempts < 3 then
        { matched := true,
          result := some { success := true, action := .retry,
                           message := "Scheduling retry",
                           delay := some (2 ^ ctx.attempts * 1000) } }
       else if ctx.severity < Severity.CRITICAL then
        { matched := true,
          result := some { success := true, action := .skip,
                           message := "Skipping after max retries, creating learning" } }
       else
        { matched := true,
          result := some { success := true, action := .escalate,
                           message := "Escalating to human attention" } }) := by
  by_cases h1 : ctx.attempts < 3
  · simp [jobFailureTree, DecisionNode.evaluate, evalFallback, firstChildMatch, h1]
  · by_cases h2 : ctx.severity < Severity.CRITICAL <;>
      simp [jobFailureTree, DecisionNode.evaluate, evalFallback, firstChildMatch,
        h1, h2, Nat.not_lt.mp h1]

/-- Closed-form behaviour of the sync-failure tree on any context. -/
theorem evaluate_syncFailureTree (ctx : IssueContext) :
    DecisionNode.evaluate syncFailureTree ctx =
      (if optIncludes ctx.error "rate limit" then
        { matched := true,
          result := some { success := true, action := .retry,
                           message := "Rate limited - backing off",
                           delay := some 60000 } }
       else if optIncludes ctx.error "network" || optIncludes ctx.error "timeout" then
        { matched := true,
          result := some { success := true, action := .retry,
                           message := "Network error - retrying with backoff",
                           delay := some 5000 } }
       else if optIncludes ctx.error "401" || optIncludes ctx.error "403" then
        { matched := true,
          result := some { success := true, action := .escalate,
                           message := "Authentication error - needs manual intervention" } }
       else
        { matched := true,
          result := some { success := true, action := .learn,
                           message := "Unknown error - learning for future" } }) := by
  by_cases h1 : optIncludes ctx.error "rate limit"
  · simp [syncFailureTree, DecisionNode.evaluate, evalFallback, firstChildMatch, h1]
  · by_cases h2 : optIncludes ctx.error "network" || optIncludes ctx.error "timeout"
    · simp [syncFailureTree, DecisionNode.evaluate, evalFallback, firstChildMatch, h1, h2]
    · by_cases h3 : optIncludes ctx.error "401" || optIncludes ctx.error "403" <;>
        simp [syncFailureTree, DecisionNode.evaluate, evalFallback, firstChildMatch,
          h1, h2, h3]

/-! ## The evaluation algorithm as the (amended) specification states it

`evaluateAmended` follows the amended wording of the spec's algorithm
(§4.2): condition false means unmatched; a successful action is returned
immediately; otherwise the children are evaluated in declaration order
and the first matching child wins; otherwise the fallback, if present,
is evaluated; a node with neither a matching child nor a fallback
reports matched exactly when an action was attempted (and then carries
that failed action result), and unmatched when it carried no action.
It is written independently of the source evaluator: the children phase
maps evaluation over all children and picks the first matched result. -/

mutual

def evaluateAmended : DecisionNode → IssueContext → EvalResult
  | .mk _ cond act children fb, ctx =>
    if cond ctx then
      match act.map (fun a => a ctx) with
      | Option.some r =>
        if r.success then { matched := true, result := some r }
        else ((mapEvalChildren children ctx).find? (fun er => er.matched)).getD
          (amendedFallback (Option.some r) fb ctx)
      | Option.none =>
        ((mapEvalChildren children ctx).find? (fun er => er.matched)).getD
          (amendedFallback Option.none fb ctx)
    else { matched := false, result := none }
termination_by n _ => 2 * sizeOf n

def amendedFallback : Option ActionResult → Option DecisionNode → IssueContext → EvalResult
  | _, Option.some f, ctx => evaluateAmended f ctx
  | r, Option.none, _ => { matched := r.isSome, result := r }
termination_by _ fb _ => 2 * sizeOf fb + 1

def mapEvalChildren : List DecisionNode → IssueContext → List EvalResult
  | [], _ => []
  | c :: rest, ctx => evaluateAmended c ctx :: mapEvalChildren rest ctx
termination_by l _ => 2 * sizeOf l

end

mutual

theorem evaluate_eq_evaluateAmended : ∀ (n : DecisionNode) (ctx : IssueContext),
    DecisionNode.evaluate n ctx = evaluateAmended n ctx
  | .mk name cond act children fb, ctx => by
    by_cases hc : cond ctx = true
    · simp only [DecisionNode.evaluate, evaluateAmended, hc, if_true]
      cases act.map (fun a => a ctx) with
      | none =>
        rw [firstChildMatch_eq_find children ctx,
          evalFallback_eq_amendedFallback Option.none fb ctx]
      | some r =>
        by_cases h : r.success = true
        · simp [h]
        · simp only [h, Bool.false_eq_true, if_false]
          rw [firstChildMatch_eq_find children ctx,
            evalFallback_eq_amendedFallback (Option.some r) fb ctx]
    · simp [DecisionNode.evaluate, evaluateAmended, hc]
termination_by n _ => 2 * sizeOf n

theorem evalFallback_eq_amendedFallback : ∀ (r : Option ActionResult)
    (fb : Option DecisionNode) (ctx : IssueContext),
    evalFallback r fb ctx = amendedFallback r fb ctx
  | r, Option.some f, ctx => by
    simp only [evalFallback, amendedFallback]
    exact evaluate_eq_evaluateAmended f ctx
  | _, Option.none, _ => by simp only [evalFallback, amendedFallback]
termination_by _ fb _ => 2 * sizeOf fb + 1

theorem firstChildMatch_eq_find : ∀ (l : List DecisionNode) (ctx : IssueContext),
    firstChildMatch l ctx = (mapEvalChildren l ctx).find? (fun er => er.matched)
  | [], _ => by simp only [firstChildMatch, mapEvalChildren, List.find?]
  | c :: rest, ctx => by
    simp only [firstChildMatch, mapEvalChildren, List.find?]
    rw [evaluate_eq_evaluateAmended c ctx, firstChildMatch_eq_find rest ctx]
    cases h : (evaluateAmended c ctx).matched <;> simp [h]
termination_by l _ => 2 * sizeOf l

end

/-- Children are mapped in declaration order: `mapEvalChildren` is a
plain `List.map` of `evaluateAmended` over the children list. -/
theorem mapEvalChildren_eq_map (l : List DecisionNode) (ctx : IssueContext) :
    mapEvalChildren l ctx = l.map (fun c => evaluateAmended c ctx) := by
  induction l with
  | nil => simp [mapEvalChildren]
  | cons c rest ih => simp [mapEvalChildren, ih]

/-- A node whose condition holds and whose action runs but reports
failure, with no children and no fallback.  `DecisionNode.evaluate`
returns `matched: true` on it (the final `{matched: !!result, result}`
of the source, with `result` the failed action object). -/
def failingActionNode : DecisionNode :=
  .mk "failing_action" (fun _ => true)
    (Option.some fun _ =>
      { success := false, action := .notify, message := "action reported failure" })
    [] Option.none

/-! ## Issue types (`IssueType`) -/

inductive IssueType where
  | job_failure
  | cron_failure
  | sync_failure
  | dead_letter
  | health_degradation
  | cohesion_drift
  | rate_limit
  | api_error
deriving DecidableEq, Repr

/-- The decision-tree table built by `_buildDecisionTrees`: only
`job_failure`, `cron_failure`, `sync_failure` and `cohesion_drift`
receive a tree; every other issue type has none. -/
def decisionTrees : IssueType → Option DecisionNode
  | .job_failure => Option.some jobFailureTree
  | .cron_failure => Option.some cronFailureTree
  | .sync_failure => Option.some syncFailureTree
  | .cohesion_drift => Option.some cohesionDriftTree
  | _ => Option.none

/-- An in-memory issue as passed to `handleIssue`:
`{ id, type, severity, description, context }`. -/
structure Issue where
  id : String
  type : IssueType
  severity : Nat
  description : String := ""
  context : IssueContext := {}
deriving DecidableEq, Repr

/-- A stored issue record under key `issue:<id>` in AGENT_STATE: the
issue's own fields plus whatever extra fields the storing write spread
in.  `Option` fields model JSON fields that a given write may omit
(`none` corresponds to an absent/undefined field). -/
structure StoredIssue where
  issue : Issue
  detectedAt : Option Nat := none
  resolved : Option Bool := none
  escalated : Option Bool := none
  resolvedAt : Option Nat := none
  resolution : Option String := none
  retryScheduledAt : Option Nat := none
  retryDelay : Option Nat := none
deriving DecidableEq, Repr

/-- A learning record put into LEARNING_MEMORY by `_createLearning`. -/
structure Learning where
  id : String
  issueType : IssueType
  outcome : String
  context : IssueContext
deriving DecidableEq, Repr

/-- An escalation record stored under `escalation:<id>` by `_escalateIssue`. -/
structure Escalation where
  issueId : String
  type : IssueType
  severity : Nat
  description : String
  context : IssueContext
  escalatedAt : Nat
deriving DecidableEq, Repr

/-- The retry job created by `_scheduleRetry` through
`JobScheduler.createJob({type: 'retry_issue', payload, priority: 8})`. -/
structure RetryJob where
  id : String
  type : String
  issueId : String
  originalType : IssueType
  priority : Nat
deriving DecidableEq, Repr

/-- Engine counters (`this.stats`). -/
structure EngineStats where
  issuesDetected : Nat := 0
  issuesResolved : Nat := 0
  escalations : Nat := 0
  learnings : Nat := 0
deriving DecidableEq, Repr

/-- A job record in the JOB_QUEUE KV namespace as written by
`JobScheduler.createJob` / `updateJob`. -/
structure SchedJob where
  id : String
  type : String := "custom"
  status : String := "pending"
  priority : Nat := 5
  attempts : Nat := 0
  maxAttempts : Nat := 3
  result : Option String := none
  error : Option String := none
deriving DecidableEq, Repr

/-- The state a `SelfHealingEngine` instance reads and writes: the
`issue:`/`escalation:` keys of AGENT_STATE, LEARNING_MEMORY, the retry
jobs it creates via the scheduler, the JOB_QUEUE it may delete from
(RESET), its stats, and a counter modelling `generateId`. -/
structure EngineState where
  issueStore : List (String × StoredIssue) := []
  escalationStore : List (String × Escalation) := []
  learningMemory : List Learning := []
  retryJobs : List RetryJob := []
  jobQueue : List (String × SchedJob) := []
  stats : EngineStats := {}
  idCounter : Nat := 0
deriving DecidableEq, Repr

/-- `_createLearning(issue, outcome)`: append one learning record to
LEARNING_MEMORY.  It does not touch `stats.learnings` (the LEARN branch
of `_executeAction` increments that separately). -/
def SelfHealingEngine.createLearning (s : EngineState) (issue : Issue)
    (outcome : String) : EngineState :=
  { s with
    idCounter := s.idCounter + 1,
    learningMemory := s.learningMemory ++
      [({ id := "learning_" ++ toString s.idCounter, issueType := issue.type,
          outcome := outcome, context := issue.context } : Learning)] }

/-- `_markResolved(issue, resolution)`: re-read the stored record and
overwrite it with `resolved: true`, `resolvedAt`, `resolution` spread on
top.  (If no record is stored the JS spread of `null` would produce a
record carrying only those three fields; every call in the modelled
flows happens after `handleIssue` has stored the issue.) -/
def SelfHealingEngine.markResolved (s : EngineState) (issue : Issue)
    (resolution : String) (now : Nat) : EngineState :=
  let base : StoredIssue := (kvGet s.issueStore issue.id).getD { issue := issue }
  { s with issueStore := (kvPut s.issueStore issue.id
      { base with resolved := some true, resolvedAt := some now,
                  resolution := some resolution }) }

/-- `_scheduleRetry(issue, delay)`: create a `retry_issue` job with
priority 8 through the scheduler, then overwrite the stored issue with
the in-memory issue plus `retryScheduledAt`/`retryDelay` (note: this
spread drops the `detectedAt`/`resolved` fields the earlier write set). -/
def SelfHealingEngine.scheduleRetry (s : EngineState) (issue : Issue)
    (delay : Nat) (now : Nat) : EngineState :=
  let s1 := { s with
    idCounter := s.idCounter + 1,
    retryJobs := s.retryJobs ++
      [({ id := "job_" ++ toString s.idCounter, type := "retry_issue",
          issueId := issue.id, originalType := issue.type,
          priority := 8 } : RetryJob)] }
  { s1 with issueStore := (kvPut s1.issueStore issue.id
      { issue := issue, retryScheduledAt := some now, retryDelay := some delay }) }

/-- `_escalateIssue(issue)`: store an escalation record under
`escalation:<id>` (plus logging and a console message).  It does not
write the `issue:<id>` record and creates no learning. -/
def SelfHealingEngine.escalateIssue (s : EngineState) (issue : Issue)
    (now : Nat) : EngineState :=
  { s with escalationStore := (kvPut s.escalationStore issue.id
      { issueId := issue.id, type := issue.type, severity := issue.severity,
        description := issue.description, context := issue.context,
        escalatedAt := now }) }

/-- `_resetState(issue)`: delete the associated JOB_QUEUE record when the
issue is a job failure with a `jobId` in its context, then mark the
issue resolved with resolution "State reset". -/
def SelfHealingEngine.resetState (s : EngineState) (issue : Issue)
    (now : Nat) : EngineState :=
  let s1 :=
    if issue.type = IssueType.job_failure then
      match issue.context.jobId with
      | Option.some jid => { s with jobQueue := kvDel s.jobQueue jid }
      | Option.none => s
    else s
  SelfHealingEngine.markResolved s1 issue "State reset" now

/-- `_executeAction(issue, action)`: dispatch on `action.action`.
RETRY schedules a retry (delay defaulting to 5000 when the action
carries none); SKIP marks resolved, creates a learning and increments
`issuesResolved`; ESCALATE stores an escalation record and increments
`escalations`; LEARN creates a learning and increments `learnings`;
NOTIFY only logs; RESET clears state and increments `issuesResolved`;
ROLLBACK has no case in the switch and does nothing. -/
def SelfHealingEngine.executeAction (s : EngineState) (issue : Issue)
    (action : ActionResult) (now : Nat) : EngineState :=
  match action.action with
  | .retry => SelfHealingEngine.scheduleRetry s issue (action.delay.getD 5000) now
  | .skip =>
    let s1 := SelfHealingEngine.markResolved s issue "Skipped after max attempts" now
    let s2 := SelfHealingEngine.createLearning s1 issue "skipped"
    { s2 with stats := { s2.stats with issuesResolved := s2.stats.issuesResolved + 1 } }
  | .escalate =>
    let s1 := SelfHealingEngine.escalateIssue s issue now
    { s1 with stats := { s1.stats with escalations := s1.stats.escalations + 1 } }
  | .learn =>
    let s1 := SelfHealingEngine.createLearning s issue "learned"
    { s1 with stats := { s1.stats with learnings := s1.stats.learnings + 1 } }
  | .notify => s
  | .reset =>
    let s1 := SelfHealingEngine.resetState s issue now
    { s1 with stats := { s1.stats with issuesResolved := s1.stats.issuesResolved + 1 } }
  | .rollback => s

/-- What `handleIssue` returns: either the executed action result, or
the literal `{action: ESCALATE, message: ...}` objects of the
missing-tree and did-not-match paths. -/
inductive HandleOutcome where
  | executed (a : ActionResult)
  | noTree
  | unmatchedDefault
deriving DecidableEq, Repr

/-- The healing action named by a `handleIssue` return value: the two
default objects both carry `action: HealingAction.ESCALATE`. -/
def HandleOutcome.action : HandleOutcome → HealingAction
  | .executed a => a.action
  | .noTree => .escalate
  | .unmatchedDefault => .escalate

/-- The tail of `handleIssue` after the decision tree has been
evaluated: `if (result.matched && result.result)` execute the action and
return it, else return the default-escalate object. -/
def SelfHealingEngine.dispatchResult (s : EngineState) (issue : Issue)
    (r : EvalResult) (now : Nat) : HandleOutcome × EngineState :=
  if r.matched then
    match r.result with
    | Option.some act =>
      (.executed act, SelfHealingEngine.executeAction s issue act now)
    | Option.none => (.unmatchedDefault, s)
  else (.unmatchedDefault, s)

/-- `handleIssue(issue)`: increment `issuesDetected`, store the issue
under `issue:<id>` with `detectedAt` and `resolved: false`, look up the
decision tree for `issue.type` (none means return the
no-decision-tree escalate object), evaluate it on `issue.context`, and
dispatch on the evaluation result. -/
def SelfHealingEngine.handleIssue (s : EngineState) (issue : Issue)
    (now : Nat) : HandleOutcome × EngineState :=
  let s1 := { s with stats :=
    { s.stats with issuesDetected := s.stats.issuesDetected + 1 } }
  let s2 := { s1 with issueStore := (kvPut s1.issueStore issue.id
      { issue := issue, detectedAt := some now, resolved := some false }) }
  match decisionTrees issue.type with
  | Option.none => (.noTree, s2)
  | Option.some tree =>
    SelfHealingEngine.dispatchResult s2 issue (tree.evaluate issue.context) now

/-- A dead-lettered queue message as received by `handleDeadLetter`. -/
structure DeadLetterMessage where
  id : String
  body : String
  retryCount : Nat
deriving DecidableEq, Repr

/-- The issue object `handleDeadLetter` constructs: type DEAD_LETTER,
severity MEDIUM, context `{messageId, body, retryCount}` (the fresh id
produced by `generateId('issue')` is passed in as `newId`). -/
def deadLetterIssue (message : DeadLetterMessage) (newId : String) : Issue :=
  { id := newId, type := .dead_letter, severity := Severity.MEDIUM,
    description := "Dead letter message: " ++ message.id,
    context := { messageId := some message.id, body := some message.body,
                 retryCount := message.retryCount } }

/-- `handleDeadLetter(message)`: route the constructed dead-letter issue
through `handleIssue`. -/
def SelfHealingEngine.handleDeadLetter (s : EngineState)
    (message : DeadLetterMessage) (newId : String) (now : Nat) :
    HandleOutcome × EngineState :=
  SelfHealingEngine.handleIssue s (deadLetterIssue message newId) now

/-! ## The `SelfHealer` durable object

A separate, simpler issue store (`issue:` keys in durable-object
storage) with explicit `resolved`/`escalated` booleans, written by
`reportIssue` and mutated by `resolveIssue` / `escalateIssue`. -/

structure SHIssue where
  id : String
  type : String := ""
  resolved : Bool := false
  escalated : Bool := false
  attempts : Nat := 0
  resolution : Option String := none
  escalatedAt : Option Nat := none
  escalationReason : Option String := none
deriving DecidableEq, Repr

structure SHLearning where
  id : String
  issueType : String
  outcome : String
  resolution : Option String := none
deriving DecidableEq, Repr

/-- `SelfHealer.createLearning(issue, outcome)`: store one learning
under `learning:learning_<Date.now()>`. -/
def SelfHealer.createLearning (learnings : List (String × SHLearning))
    (issue : SHIssue) (outcome : String) (now : Nat) :
    List (String × SHLearning) :=
  kvPut learnings ("learning_" ++ toString now)
    { id := "learning_" ++ toString now, issueType := issue.type,
      outcome := outcome, resolution := issue.resolution }

/-- `SelfHealer.escalateIssue`: 404 when the issue id is unknown;
otherwise set `escalated: true`, `escalatedAt`, `escalationReason`,
store the updated issue, and create one learning with outcome
"escalated".  The `resolved` flag is not touched. -/
def SelfHealer.escalateIssue (issues : List (String × SHIssue))
    (learnings : List (String × SHLearning)) (issueId : String)
    (reason : String) (now : Nat) :
    Option (List (String × SHIssue) × List (String × SHLearning)) :=
  match kvGet issues issueId with
  | Option.none => Option.none
  | Option.some issue =>
    let issue1 := { issue with escalated := true, escalatedAt := some now,
                               escalationReason := some reason }
    Option.some (kvPut issues issueId issue1,
      SelfHealer.createLearning learnings issue1 "escalated" now)

/-! ## The `JobOrchestrator` durable object

Jobs stored under `job:<id>` with the shape written by `scheduleJob`. -/

structure OJob where
  id : String
  type : String := "custom"
  priority : Nat := 5
  status : String := "pending"
  scheduledFor : Nat := 0
  attempts : Nat := 0
  maxAttempts : Nat := 3
  startedAt : Option Nat := none
  cancelledAt : Option Nat := none
deriving DecidableEq, Repr

/-- Outcome of `JobOrchestrator.cancelJob`: 404, the 400
"Cannot cancel running job" rejection, or `{ok: true}`. -/
inductive CancelOutcome where
  | notFound
  | cannotCancelRunning
  | ok
deriving DecidableEq, Repr

/-- `JobOrchestrator.cancelJob`: look the job up (404 when absent);
reject with "Cannot cancel running job" when its status is `running`;
otherwise set `status: 'cancelled'` and `cancelledAt` and store it.
No other status is checked: a job in any non-running state, terminal
ones included, is cancelled. -/
def JobOrchestrator.cancelJob (store : List (String × OJob)) (jobId : String)
    (now : Nat) : CancelOutcome × List (String × OJob) :=
  match kvGet store jobId with
  | Option.none => (.notFound, store)
  | Option.some job =>
    if job.status = "running" then (.cannotCancelRunning, store)
    else (.ok, kvPut store jobId
      { job with status := "cancelled", cancelledAt := some now })

inductive RunOutcome where
  | notFound
  | started
deriving DecidableEq, Repr

/-- `JobOrchestrator.runJob`: look the job up (404 when absent); set
`status: 'running'`, `startedAt`, increment `attempts`, store, and
report `{status: 'started'}`.  The current status is never examined. -/
def JobOrchestrator.runJob (store : List (String × OJob)) (jobId : String)
    (now : Nat) : RunOutcome × List (String × OJob) :=
  match kvGet store jobId with
  | Option.none => (.notFound, store)
  | Option.some job =>
    (.started, kvPut store jobId
      { job with status := "running", startedAt := some now,
                 attempts := job.attempts + 1 })

/-- The dispatch condition of `JobOrchestrator.alarm()`: a job is
executed by the alarm exactly when its status is `pending` and its
`scheduledFor` time has passed. -/
def JobOrchestrator.alarmEligible (job : OJob) (now : Nat) : Bool :=
  job.status = "pending" && decide (job.scheduledFor ≤ now)

/-- The worker API's DELETE `/api/jobs/:id` handler (`cancelJob` in the
main worker): delete the JOB_QUEUE record unconditionally and answer
`{status: 'cancelled', jobId}`.  It never inspects the job's state. -/
def cancelJobApiRoute (store : List (String × SchedJob)) (jobId : String) :
    (String × String) × List (String × SchedJob) :=
  (("cancelled", jobId), kvDel store jobId)

/-! ## The `JobScheduler` (`src/jobs/scheduler.js`) -/

/-- `JobScheduler.updateJob(jobId, updates)`: read the stored job (throw
`Job not found` when absent), merge the updates, stamp `updatedAt`, and
store the merged record.  The merge is passed as an explicit update
function matching the literal fields of each call site. -/
def JobScheduler.updateJob (store : List (String × SchedJob)) (jobId : String)
    (upd : SchedJob → SchedJob) :
    Except String (List (String × SchedJob) × SchedJob) :=
  match kvGet store jobId with
  | Option.none => .error ("Job not found: " ++ jobId)
  | Option.some job =>
    let updated := upd job
    .ok (kvPut store jobId updated, updated)

/-- `JobScheduler.processQueuedJob(jobData)`: mark the job running with
`attempts: job.attempts + 1`; run the executor; on success mark
completed with the result; on failure mark `failed` when
`job.attempts >= job.maxAttempts` — the attempts value of the *message*,
before the increment — and `pending` otherwise, recording the error and
rethrowing it.  The executor (`executeJob`) is abstracted as the
`exec` argument since its body only performs external side effects. -/
def JobScheduler.processQueuedJob (store : List (String × SchedJob))
    (job : SchedJob) (exec : Except String String) :
    List (String × SchedJob) × Except String String :=
  match JobScheduler.updateJob store job.id
      (fun j => { j with status := "running", attempts := job.attempts + 1 }) with
  | .error e => (store, .error e)
  | .ok (store1, _) =>
    match exec with
    | .ok result =>
      match JobScheduler.updateJob store1 job.id
          (fun j => { j with status := "completed", result := some result }) with
      | .error e => (store1, .error e)
      | .ok (store2, _) => (store2, .ok result)
    | .error e =>
      match JobScheduler.updateJob store1 job.id
          (fun j => { j with
            status := if job.maxAttempts ≤ job.attempts then "failed" else "pending",
            error := some e }) with
      | .error e2 => (store1, .error e2)
      | .ok (store2, _) => (store2, .error e)

/-! ## The worker orchestrator's `processJob` (unnamed part_001) -/

/-- A job as created by `handleCreateJob` in the standalone worker. -/
structure PJob where
  id : String
  type : String := "repo_sync"
  state : String := "pending"
  attempts : Nat := 0
  maxAttempts : Nat := 3
  healingAttempts : Nat := 0
  lastError : Option String := none
deriving DecidableEq, Repr

/-- The retry guard of `processJob` (line `if (job.attempts <
job.maxAttempts)`), applied after the attempt counter has been
incremented. -/
def processJobShouldRetry (job : PJob) : Bool :=
  decide (job.attempts < job.maxAttempts)

/-- `processJob(job)`: set RUNNING and increment `attempts`; run the
work function (abstracted as `exec`, indexed by the attempt number); on
success set COMPLETED; on failure, when attempts (post-increment) are
below `maxAttempts`, set HEALING, record the error, sleep
`2^attempts * 1000` ms and recurse; otherwise set HEALING and increment
`healingAttempts`.  The function returns the final job record and the
list of backoff delays slept.  The exhausted branch then calls
`attemptSelfHealing` / `createEscalationIssue`, which never modify the
`attempts` counter; those continuations are outside this model. -/
def processJob (exec : Nat → Except String String) (job : PJob) :
    PJob × List Nat :=
  let j1 := { job with state := "running", attempts := job.attempts + 1 }
  match exec j1.attempts with
  | .ok _ => ({ j1 with state := "completed" }, [])
  | .error e =>
    if h : processJobShouldRetry j1 then
      let delay := 2 ^ j1.attempts * 1000
      let rest := processJob exec { j1 with state := "healing", lastError := some e }
      (rest.1, delay :: rest.2)
    else
      ({ j1 with state := "healing", healingAttempts := j1.healingAttempts + 1 }, [])
termination_by job.maxAttempts - job.attempts
decreasing_by
  simp [processJobShouldRetry] at h
  omega

/-! ## `retryWithBackoff` (`src/utils/helpers.js`) -/

def defaultMaxRetries : Nat := 4
def defaultBaseDelay : Nat := 2000

/-- The attempt loop of `retryWithBackoff`: try `fn` at attempt index
`attempt`; return its value on success; on failure sleep
`baseDelay * 2^attempt` when another attempt remains
(`attempt < maxRetries - 1`) and continue; after the loop rethrow the
last error.  Returns the outcome and the list of delays slept. -/
def retryWithBackoffAux (fn : Nat → Except String String)
    (maxRetries baseDelay attempt : Nat) (lastError : String) :
    Except String String × List Nat :=
  if _h : attempt < maxRetries then
    match fn attempt with
    | .ok v => (.ok v, [])
    | .error e =>
      if attempt < maxRetries - 1 then
        let d := baseDelay * 2 ^ attempt
        let rest := retryWithBackoffAux fn maxRetries baseDelay (attempt + 1) e
        (rest.1, d :: rest.2)
      else
        retryWithBackoffAux fn maxRetries baseDelay (attempt + 1) e
  else (.error lastError, [])
termination_by maxRetries - attempt

/-- `retryWithBackoff(fn, maxRetries, baseDelay)` — JS defaults are
`maxRetries = 4`, `baseDelay = 2000`.  (`lastError` starts undefined in
JS; it is only thrown when `maxRetries = 0`.) -/
def retryWithBackoff (fn : Nat → Except String String)
    (maxRetries baseDelay : Nat) : Except String String × List Nat :=
  retryWithBackoffAux fn maxRetries baseDelay 0 ""

/-- Modelled from the spec (§4.4): the pure backoff function
`nextDelay(attempt) = base * 2^(attempt-1)`.  No function of this name
exists in the source; `retryWithBackoff` inlines the computation as
`baseDelay * Math.pow(2, attempt)` over its 0-based loop index. -/
def specNextDelay (base attempt : Nat) : Nat :=
  base * 2 ^ (attempt - 1)

/-- Modelled from the spec (§4.4): `shouldRetry(attempts, max_attempts)
= attempts < max_attempts`. -/
def specShouldRetry (attempts maxAttempts : Nat) : Bool :=
  decide (attempts < maxAttempts)

/-! ## Backoff delay characterizations -/

/-- When every attempt fails, the delays slept by the `retryWithBackoff`
loop from attempt index `a` on are `base * 2^i` for
`i = a, ..., maxRetries - 2`. -/
theorem retryWithBackoffAux_allFail_delays (errs : Nat → String) (m b : Nat) :
    ∀ (a : Nat) (lastE : String),
      (retryWithBackoffAux (fun i => Except.error (errs i)) m b a lastE).2 =
        (List.range' a (m - 1 - a)).map (fun i => b * 2 ^ i)
  | a, lastE => by
    rw [retryWithBackoffAux]
    by_cases h : a < m
    · simp only [dif_pos h]
      by_cases h2 : a < m - 1
      · simp only [if_pos h2]
        rw [retryWithBackoffAux_allFail_delays errs m b (a + 1) (errs a)]
        have h3 : m - 1 - a = (m - 1 - (a + 1)) + 1 := by omega
        rw [h3, List.range'_succ]
        simp
      · simp only [if_neg h2]
        rw [retryWithBackoffAux_allFail_delays errs m b (a + 1) (errs a)]
        have h3 : m - 1 - a = 0 := by omega
        have h4 : m - 1 - (a + 1) = 0 := by omega
        rw [h3, h4]
        simp [List.range']
    · rw [dif_neg h]
      have h3 : m - 1 - a = 0 := by omega
      rw [h3]
      simp
termination_by a _ => m - a
decreasing_by all_goals omega


/-- When every attempt fails, `retryWithBackoff` sleeps exactly
`base * 2^0, base * 2^1, ..., base * 2^(maxRetries-2)`. -/
theorem retryWithBackoff_allFail_delays (errs : Nat → String) (m b : Nat) :
    (retryWithBackoff (fun i => Except.error (errs i)) m b).2 =
      (List.range (m - 1)).map (fun i => b * 2 ^ i) := by
  rw [retryWithBackoff, retryWithBackoffAux_allFail_delays, List.range_eq_range']
  norm_num

/-- When every attempt fails, `processJob` runs the attempt counter from
`attempts + 1` up to `max (attempts + 1) maxAttempts`, ends in state
`healing`, and sleeps `2^k * 1000` ms after each failed attempt `k` that
still had retries left (`k = attempts + 1, ..., maxAttempts - 1`). -/
theorem processJob_allFail (errs : Nat → String) (job : PJob) :
    (processJob (fun i => Except.error (errs i)) job).1.attempts =
        max (job.attempts + 1) job.maxAttempts ∧
      (processJob (fun i => Except.error (errs i)) job).1.maxAttempts =
        job.maxAttempts ∧
      (processJob (fun i => Except.error (errs i)) job).1.state = "healing" ∧
      (processJob (fun i => Except.error (errs i)) job).2 =
        (List.range' (job.attempts + 1) (job.maxAttempts - (job.attempts + 1))).map
          (fun k => 2 ^ k * 1000) := by
  rw [processJob]
  by_cases h : job.attempts + 1 < job.maxAttempts
  · have hg : processJobShouldRetry
        { job with state := "running", attempts := job.attempts + 1 } = true := by
      simp [processJobShouldRetry]
      omega
    have ih := processJob_allFail errs
      { job with state := "healing", attempts := job.attempts + 1,
                 lastError := some (errs (job.attempts + 1)) }
    simp only [hg, dif_pos]
    refine ⟨?_, ?_, ?_, ?_⟩
    · rw [ih.1]
      simp
      omega
    · rw [ih.2.1]
    · rw [ih.2.2.1]
    · rw [ih.2.2.2]
      simp only []
      have h3 : job.maxAttempts - (job.attempts + 1) =
          (job.maxAttempts - (job.attempts + 1 + 1)) + 1 := by omega
      rw [h3, List.range'_succ]
      simp
  · have hg : processJobShouldRetry
        { job with state := "running", attempts := job.attempts + 1 } = false := by
      simp [processJobShouldRetry]
      omega
    simp only [hg, Bool.false_eq_true, dif_neg, not_false_iff]
    have h3 : job.maxAttempts - (job.attempts + 1) = 0 := by omega
    refine ⟨?_, by simp, by simp, by rw [h3]; simp [List.range']⟩
    simp
    omega
termination_by job.maxAttempts - job.attempts
decreasing_by
  simp
  omega

/-! ## Claim theorems -/

/-- C1: for every job-failure issue context, the job-failure decision
tree yields RETRY with a delay of `2^attempts` seconds (stored as
`2^attempts * 1000` milliseconds) when `attempts < 3`, SKIP when
`attempts >= 3` and `severity < critical`, and ESCALATE via the fallback
node otherwise; in particular `attempts = 1` yields RETRY with a
2-second (2000 ms) delay, `attempts = 3` with severity medium yields
SKIP, and `attempts = 3` with severity critical yields ESCALATE. -/
theorem C1_jobFailureTree_eval :
    (∀ ctx : IssueContext,
      DecisionNode.evaluate jobFailureTree ctx =
        (if ctx.attempts < 3 then
          { matched := true,
            result := some { success := true, action := .retry,
                             message := "Scheduling retry",
                             delay := some (2 ^ ctx.attempts * 1000) } }
         else if ctx.severity < Severity.CRITICAL then
          { matched := true,
            result := some { success := true, action := .skip,
                             message := "Skipping after max retries, creating learning" } }
         else
          { matched := true,
            result := some { success := true, action := .escalate,
                             message := "Escalating to human attention" } })) ∧
    ((DecisionNode.evaluate jobFailureTree
        { attempts := 1, severity := Severity.MEDIUM }).result.map
          (fun r => (r.action, r.delay)) = some (.retry, some 2000)) ∧
    ((DecisionNode.evaluate jobFailureTree
        { attempts := 3, severity := Severity.MEDIUM }).result.map
          (fun r => r.action) = some .skip) ∧
    ((DecisionNode.evaluate jobFailureTree
        { attempts := 3, severity := Severity.CRITICAL }).result.map
          (fun r => r.action) = some .escalate) := by
  refine ⟨evaluate_jobFailureTree, ?_, ?_, ?_⟩ <;>
    rw [evaluate_jobFailureTree] <;> decide

/-- C4 (amended): evaluation checks the node's condition (false means
unmatched); a successful action is returned immediately (first match
wins); when the action fails or is absent, the children are evaluated
in declaration order and the first matching child wins; when no child
matches, the fallback (if present) is evaluated; a node with neither a
matching child nor a fallback reports matched exactly when an action
was attempted — carrying that failed action result — and reports
unmatched only when it carried no action; the caller turns an unmatched
evaluation into the default ESCALATE outcome.  Stated as: the source
evaluator coincides with `evaluateAmended`, the independent rendering of
this algorithm; the children loop is first-match over the in-order
evaluations; and `handleIssue`'s dispatch on an unmatched result leaves
the state unchanged and reports the implicit-escalate default. -/
theorem C4_evaluate_algorithm :
    (∀ (n : DecisionNode) (ctx : IssueContext),
        DecisionNode.evaluate n ctx = evaluateAmended n ctx) ∧
    (∀ (l : List DecisionNode) (ctx : IssueContext),
        firstChildMatch l ctx =
          (l.map (fun c => DecisionNode.evaluate c ctx)).find?
            (fun er => er.matched)) ∧
    (∀ (s : EngineState) (issue : Issue) (r : EvalResult) (now : Nat),
        r.matched = false →
          SelfHealingEngine.dispatchResult s issue r now =
            (HandleOutcome.unmatchedDefault, s) ∧
          HandleOutcome.action HandleOutcome.unmatchedDefault =
            HealingAction.escalate) := by
  refine ⟨evaluate_eq_evaluateAmended, ?_, ?_⟩
  · intro l ctx
    rw [firstChildMatch_eq_find, mapEvalChildren_eq_map]
    have hfun : (fun c => evaluateAmended c ctx) =
        (fun c => DecisionNode.evaluate c ctx) :=
      funext fun c => (evaluate_eq_evaluateAmended c ctx).symm
    rw [hfun]
  · intro s issue r now h
    exact ⟨by simp [SelfHealingEngine.dispatchResult, h], rfl⟩

/-- Witness for C4 at concrete inputs: the two evaluators agree on the
job-failure tree, and dispatching an unmatched result on a concrete
engine state yields the implicit-escalate default with the state
untouched. -/
theorem C4_witness :
    DecisionNode.evaluate jobFailureTree { attempts := 1 } =
      evaluateAmended jobFailureTree { attempts := 1 } ∧
    (SelfHealingEngine.dispatchResult {}
        { id := "i", type := .job_failure, severity := 1 }
        { matched := false } 0 =
      (HandleOutcome.unmatchedDefault, ({} : EngineState)) ∧
      HandleOutcome.action HandleOutcome.unmatchedDefault =
        HealingAction.escalate) :=
  ⟨C4_evaluate_algorithm.1 jobFailureTree { attempts := 1 },
   C4_evaluate_algorithm.2.2 {} { id := "i", type := .job_failure, severity := 1 }
     { matched := false } 0 rfl⟩

/-- Counterexample for C4 as stated: the claim says a tree with neither
a matching child nor a fallback returns unmatched, but on a node whose
condition holds and whose action runs and fails, with no children and no
fallback, the source evaluator returns `matched: true` carrying the
failed action result (`{matched: !!result, result}` with a non-null
failed `result`). -/
theorem C4_counterexample_failed_action_matched :
    DecisionNode.evaluate failingActionNode {} =
      { matched := true,
        result := some { success := false, action := .notify,
                         message := "action reported failure" } } := by
  simp [failingActionNode, DecisionNode.evaluate, evalFallback, firstChildMatch]

/-- C5: for every sync-failure issue context, the sync-failure decision
tree yields RETRY with a fixed 60000 ms delay when the error text
contains "rate limit"; otherwise RETRY with a fixed 5000 ms delay when
it contains "network" or "timeout"; otherwise ESCALATE when it contains
"401" or "403"; and LEARN via the fallback node for any other error
text; in particular "rate limit exceeded" yields RETRY with 60000 ms,
"connection timeout" yields RETRY with 5000 ms, "401 unauthorized"
yields ESCALATE, and "disk full" yields LEARN. -/
theorem C5_syncFailureTree_eval :
    (∀ ctx : IssueContext,
      DecisionNode.evaluate syncFailureTree ctx =
        (if optIncludes ctx.error "rate limit" then
          { matched := true,
            result := some { success := true, action := .retry,
                             message := "Rate limited - backing off",
                             delay := some 60000 } }
         else if optIncludes ctx.error "network" || optIncludes ctx.error "timeout" then
          { matched := true,
            result := some { success := true, action := .retry,
                             message := "Network error - retrying with backoff",
                             delay := some 5000 } }
         else if optIncludes ctx.error "401" || optIncludes ctx.error "403" then
          { matched := true,
            result := some { success := true, action := .escalate,
                             message := "Authentication error - needs manual intervention" } }
         else
          { matched := true,
            result := some { success := true, action := .learn,
                             message := "Unknown error - learning for future" } })) ∧
    ((DecisionNode.evaluate syncFailureTree
        { error := some "rate limit exceeded" }).result.map
          (fun r => (r.action, r.delay)) = some (.retry, some 60000)) ∧
    ((DecisionNode.evaluate syncFailureTree
        { error := some "connection timeout" }).result.map
          (fun r => (r.action, r.delay)) = some (.retry, some 5000)) ∧
    ((DecisionNode.evaluate syncFailureTree
        { error := some "401 unauthorized" }).result.map
          (fun r => r.action) = some .escalate) ∧
    ((DecisionNode.evaluate syncFailureTree
        { error := some "disk full" }).result.map
          (fun r => r.action) = some .learn) := by
  refine ⟨evaluate_syncFailureTree, ?_, ?_, ?_, ?_⟩ <;>
    rw [evaluate_syncFailureTree] <;> decide

/-- C10: `handleDeadLetter` routes every dead-letter message through
`handleIssue` with issue type `dead_letter`, for which no decision tree
is registered; `handleIssue` therefore takes its missing-tree branch and
returns the no-decision-tree ESCALATE object without evaluating a tree:
no escalation record is persisted, no learning is created, the
escalations counter is unchanged, and the issue is stored with
`resolved = false`. -/
theorem C10_deadLetter_noTree_escalate (s : EngineState)
    (message : DeadLetterMessage) (newId : String) (now : Nat) :
    decisionTrees IssueType.dead_letter = Option.none ∧
    (SelfHealingEngine.handleDeadLetter s message newId now).1 =
      HandleOutcome.noTree ∧
    HandleOutcome.action
      (SelfHealingEngine.handleDeadLetter s message newId now).1 =
      HealingAction.escalate ∧
    (SelfHealingEngine.handleDeadLetter s message newId now).2.escalationStore =
      s.escalationStore ∧
    (SelfHealingEngine.handleDeadLetter s message newId now).2.learningMemory =
      s.learningMemory ∧
    (SelfHealingEngine.handleDeadLetter s message newId now).2.stats.escalations =
      s.stats.escalations ∧
    (SelfHealingEngine.handleDeadLetter s message newId now).2.stats.learnings =
      s.stats.learnings ∧
    kvGet (SelfHealingEngine.handleDeadLetter s message newId now).2.issueStore
        newId =
      some { issue := deadLetterIssue message newId, detectedAt := some now,
             resolved := some false } := by
  refine ⟨rfl, ?_, ?_, ?_, ?_, ?_, ?_, ?_⟩ <;>
    simp [SelfHealingEngine.handleDeadLetter, SelfHealingEngine.handleIssue,
      deadLetterIssue, decisionTrees, HandleOutcome.action, kvGet_kvPut]

theorem kvGet_kvDel {α : Type} (store : List (String × α)) (key : String) :
    kvGet (kvDel store key) key = none := by
  induction store with
  | nil => simp [kvDel, kvGet]
  | cons p rest ih =>
    by_cases h : p.1 = key
    · simpa [kvDel, h] using ih
    · simpa [kvDel, kvGet, h] using ih

/-- A job the orchestrator has already completed. -/
def completedJob : OJob :=
  { id := "job_done", status := "completed", attempts := 1 }

def c2Store : List (String × OJob) := [("job_done", completedJob)]

/-- Counterexample for C2 as stated: the stored job is in the terminal
state `completed`, yet `cancelJob` succeeds (no InvalidTransition error)
and rewrites the record to `cancelled` — a transition out of a terminal
state. -/
theorem C2_counterexample_terminal_job_cancelled :
    completedJob.status = "completed" ∧
    (JobOrchestrator.cancelJob c2Store "job_done" 42).1 = CancelOutcome.ok ∧
    kvGet (JobOrchestrator.cancelJob c2Store "job_done" 42).2 "job_done" =
      some { completedJob with status := "cancelled", cancelledAt := some 42 } := by
  decide

/-- C2 (amended): the orchestrator enforces no terminal states.  The
only transition it rejects is cancelling a `running` job; `cancelJob`
moves any other stored job — `completed`, `failed` and `cancelled` ones
included — to `cancelled`, and `runJob` moves any stored job, whatever
its status, to `running` while incrementing `attempts`. -/
theorem C2_terminal_states_not_protected (store : List (String × OJob))
    (jobId : String) (now : Nat) (job : OJob)
    (hfound : kvGet store jobId = some job) :
    (job.status = "running" →
        JobOrchestrator.cancelJob store jobId now = (.cannotCancelRunning, store)) ∧
    (job.status ≠ "running" →
        JobOrchestrator.cancelJob store jobId now =
          (.ok, kvPut store jobId
            { job with status := "cancelled", cancelledAt := some now })) ∧
    JobOrchestrator.runJob store jobId now =
      (.started, kvPut store jobId
        { job with status := "running", startedAt := some now,
                   attempts := job.attempts + 1 }) := by
  refine ⟨?_, ?_, ?_⟩
  · intro h
    simp [JobOrchestrator.cancelJob, hfound, h]
  · intro h
    simp [JobOrchestrator.cancelJob, hfound, h]
  · simp [JobOrchestrator.runJob, hfound]

/-- Witness for C2's amended theorem at a concrete store: the completed
job is cancelled, and re-run into `running` with `attempts` bumped. -/
theorem C2_witness :
    JobOrchestrator.cancelJob c2Store "job_done" 42 =
      (.ok, kvPut c2Store "job_done"
        { completedJob with status := "cancelled", cancelledAt := some 42 }) ∧
    JobOrchestrator.runJob c2Store "job_done" 7 =
      (.started, kvPut c2Store "job_done"
        { completedJob with status := "running", startedAt := some 7,
                            attempts := completedJob.attempts + 1 }) :=
  ⟨(C2_terminal_states_not_protected c2Store "job_done" 42 completedJob
      (by decide)).2.1 (by decide),
   (C2_terminal_states_not_protected c2Store "job_done" 7 completedJob
      (by decide)).2.2⟩

/-- A running job sitting in the JOB_QUEUE KV namespace. -/
def runningSchedJob : SchedJob :=
  { id := "job_run", status := "running", attempts := 1 }

def c6Queue : List (String × SchedJob) := [("job_run", runningSchedJob)]

/-- A pending job in the orchestrator's storage. -/
def pendingOJob : OJob := { id := "job_pend", status := "pending" }

def c6Store : List (String × OJob) := [("job_pend", pendingOJob)]

/-- Counterexample for C6 as stated: the worker API's DELETE handler
(`cancelJob` in the main worker) is also a cancel operation over jobs,
and on a `running` job it does not fail with InvalidTransition — it
reports `cancelled` and deletes the record. -/
theorem C6_counterexample_api_cancels_running :
    runningSchedJob.status = "running" ∧
    kvGet c6Queue "job_run" = some runningSchedJob ∧
    (cancelJobApiRoute c6Queue "job_run").1 = ("cancelled", "job_run") ∧
    kvGet (cancelJobApiRoute c6Queue "job_run").2 "job_run" = none := by
  refine ⟨rfl, by decide, rfl, ?_⟩
  exact kvGet_kvDel c6Queue "job_run"

/-- C6 (amended): `JobOrchestrator.cancelJob` rejects cancelling a
`running` job (rejected, not queued, and the store is unchanged) and
always succeeds on a `pending` job, marking it `cancelled`, after which
the alarm loop no longer dispatches it; the worker API's DELETE handler,
by contrast, deletes the stored record unconditionally and reports
`cancelled` even for a running job. -/
theorem C6_cancel_semantics (store : List (String × OJob))
    (queue : List (String × SchedJob)) (jobId : String) (now : Nat)
    (job : OJob) (hfound : kvGet store jobId = some job) :
    (job.status = "running" →
        JobOrchestrator.cancelJob store jobId now = (.cannotCancelRunning, store)) ∧
    (job.status = "pending" →
        (JobOrchestrator.cancelJob store jobId now).1 = CancelOutcome.ok ∧
        kvGet (JobOrchestrator.cancelJob store jobId now).2 jobId =
          some { job with status := "cancelled", cancelledAt := some now } ∧
        ∀ t : Nat, JobOrchestrator.alarmEligible
          { job with status := "cancelled", cancelledAt := some now } t = false) ∧
    ((cancelJobApiRoute queue jobId).1 = ("cancelled", jobId) ∧
      kvGet (cancelJobApiRoute queue jobId).2 jobId = none) := by
  refine ⟨?_, ?_, rfl, kvGet_kvDel queue jobId⟩
  · intro h
    simp [JobOrchestrator.cancelJob, hfound, h]
  · intro h
    refine ⟨?_, ?_, ?_⟩
    · simp [JobOrchestrator.cancelJob, hfound, h]
    · simp [JobOrchestrator.cancelJob, hfound, h, kvGet_kvPut]
    · intro t
      simp [JobOrchestrator.alarmEligible]

/-- Witness for C6's amended theorem at concrete inputs: cancelling the
running job through the orchestrator is rejected with the store
unchanged; cancelling the pending job succeeds, marks it cancelled and
makes it ineligible for the alarm; the API route deletes the running
job and reports cancelled. -/
theorem C6_witness :
    (JobOrchestrator.cancelJob [("job_run_o",
        ({ id := "job_run_o", status := "running" } : OJob))] "job_run_o" 3 =
      (.cannotCancelRunning,
       [("job_run_o", ({ id := "job_run_o", status := "running" } : OJob))])) ∧
    ((JobOrchestrator.cancelJob c6Store "job_pend" 3).1 = CancelOutcome.ok ∧
      kvGet (JobOrchestrator.cancelJob c6Store "job_pend" 3).2 "job_pend" =
        some { pendingOJob with status := "cancelled", cancelledAt := some 3 } ∧
      ∀ t : Nat, JobOrchestrator.alarmEligible
        { pendingOJob with status := "cancelled", cancelledAt := some 3 } t = false) ∧
    ((cancelJobApiRoute c6Queue "job_run").1 = ("cancelled", "job_run") ∧
      kvGet (cancelJobApiRoute c6Queue "job_run").2 "job_run" = none) :=
  ⟨(C6_cancel_semantics [("job_run_o", { id := "job_run_o", status := "running" })]
      c6Queue "job_run_o" 3 { id := "job_run_o", status := "running" }
      (by decide)).1 (by decide),
   (C6_cancel_semantics c6Store c6Queue "job_pend" 3 pendingOJob (by decide)).2.1
     (by decide),
   (C6_cancel_semantics [("job_run", pendingOJob)] c6Queue "job_run" 3 pendingOJob
      (by decide)).2.2⟩

/-- A job whose attempts already equal its `maxAttempts`, redelivered to
the queue scheduler. -/
def c3Job : SchedJob :=
  { id := "job_c3", status := "pending", attempts := 3, maxAttempts := 3 }

def c3Store : List (String × SchedJob) := [("job_c3", c3Job)]

/-- C3 (code bug): `JobScheduler.processQueuedJob` decides failure from
the message's attempts value *before* the increment
(`job.attempts >= job.maxAttempts`), so the stored record can reach and
keep `attempts = maxAttempts + 1`: processing `c3Job`
(attempts = maxAttempts = 3) with a failing executor stores a terminal
`failed` record with `attempts = 4 > maxAttempts = 3`, violating the
invariant outside any in-flight execution.  The worker orchestrator's
`processJob`, by contrast, checks the post-increment value and an
always-failing fresh job ends with `attempts = maxAttempts` exactly. -/
theorem C3_processQueuedJob_exceeds_maxAttempts :
    (JobScheduler.processQueuedJob c3Store c3Job (.error "boom")).2 =
      .error "boom" ∧
    kvGet (JobScheduler.processQueuedJob c3Store c3Job (.error "boom")).1
        "job_c3" =
      some { c3Job with status := "failed", attempts := 4,
                        error := some "boom" } ∧
    c3Job.maxAttempts = 3 ∧
    (processJob (fun _ => Except.error "boom")
        { id := "job_p", maxAttempts := 3 }).1.attempts = 3 ∧
    (processJob (fun _ => Except.error "boom")
        { id := "job_p", maxAttempts := 3 }).1.maxAttempts = 3 := by
  refine ⟨rfl, by decide, rfl, ?_, ?_⟩
  · have h := processJob_allFail (fun _ => "boom") { id := "job_p", maxAttempts := 3 }
    simpa using h.1
  · have h := processJob_allFail (fun _ => "boom") { id := "job_p", maxAttempts := 3 }
    simpa using h.2.1

/-- A sync-failure issue with an auth error, already stored. -/
def c7Issue : Issue :=
  { id := "i7", type := .sync_failure, severity := Severity.HIGH,
    description := "Sync failed for repo-x: 401 unauthorized",
    context := { error := some "401 unauthorized", repo := some "repo-x" } }

def c7State : EngineState :=
  { issueStore := [("i7",
      { issue := c7Issue, detectedAt := some 0, resolved := some false })] }

def c7Action : ActionResult :=
  { success := true, action := .escalate,
    message := "Authentication error - needs manual intervention" }

/-- Counterexample for C7 as stated: executing an ESCALATE action
through the engine creates zero Learning records (the claim says exactly
one) and leaves the stored issue record untouched — in particular its
`escalated` field is never set to true. -/
theorem C7_counterexample_escalate_creates_no_learning :
    (SelfHealingEngine.executeAction c7State c7Issue c7Action 5).learningMemory.length = 0 ∧
    kvGet (SelfHealingEngine.executeAction c7State c7Issue c7Action 5).issueStore
        "i7" =
      some { issue := c7Issue, detectedAt := some 0, resolved := some false } := by
  decide

/-- C7 (amended): when the Self-Healing Engine executes an ESCALATE
action, it persists exactly one escalation record and increments the
escalations counter, but it creates no Learning and leaves the stored
issue record unchanged (`escalated` is never set, `resolved` and the
`issuesResolved` counter are untouched).  The `SelfHealer` durable
object's `/escalate` endpoint, by contrast, marks the stored issue
`escalated = true` with `resolved` unchanged and creates exactly one
Learning. -/
theorem C7_escalation_effects :
    (∀ (s : EngineState) (issue : Issue) (act : ActionResult) (now : Nat),
      act.action = HealingAction.escalate →
        (SelfHealingEngine.executeAction s issue act now).escalationStore =
          kvPut s.escalationStore issue.id
            { issueId := issue.id, type := issue.type, severity := issue.severity,
              description := issue.description, context := issue.context,
              escalatedAt := now } ∧
        (SelfHealingEngine.executeAction s issue act now).learningMemory =
          s.learningMemory ∧
        (SelfHealingEngine.executeAction s issue act now).issueStore =
          s.issueStore ∧
        (SelfHealingEngine.executeAction s issue act now).stats.escalations =
          s.stats.escalations + 1 ∧
        (SelfHealingEngine.executeAction s issue act now).stats.issuesResolved =
          s.stats.issuesResolved) ∧
    (∀ (issues : List (String × SHIssue)) (learnings : List (String × SHLearning))
        (issueId reason : String) (now : Nat) (st : SHIssue),
      kvGet issues issueId = some st →
        SelfHealer.escalateIssue issues learnings issueId reason now =
          Option.some
            (kvPut issues issueId
              { st with escalated := true, escalatedAt := some now,
                        escalationReason := some reason },
             kvPut learnings ("learning_" ++ toString now)
               { id := "learning_" ++ toString now, issueType := st.type,
                 outcome := "escalated", resolution := st.resolution }) ∧
        ({ st with escalated := true, escalatedAt := some now,
                   escalationReason := some reason } : SHIssue).resolved =
          st.resolved ∧
        (kvPut learnings ("learning_" ++ toString now)
            { id := "learning_" ++ toString now, issueType := st.type,
              outcome := "escalated", resolution := st.resolution }).length =
          learnings.length + 1) := by
  constructor
  · intro s issue act now h
    refine ⟨?_, ?_, ?_, ?_, ?_⟩ <;>
      simp [SelfHealingEngine.executeAction, SelfHealingEngine.escalateIssue, h]
  · intro issues learnings issueId reason now st hfound
    refine ⟨?_, rfl, ?_⟩
    · simp [SelfHealer.escalateIssue, SelfHealer.createLearning, hfound]
    · simp [kvPut]

/-- Witness for C7's amended theorem at concrete inputs: the engine's
ESCALATE path on `c7State` and the SelfHealer endpoint on a stored
issue. -/
theorem C7_witness :
    ((SelfHealingEngine.executeAction c7State c7Issue c7Action 5).escalationStore =
      kvPut c7State.escalationStore c7Issue.id
        { issueId := c7Issue.id, type := c7Issue.type,
          severity := c7Issue.severity, description := c7Issue.description,
          context := c7Issue.context, escalatedAt := 5 } ∧
     (SelfHealingEngine.executeAction c7State c7Issue c7Action 5).learningMemory =
      c7State.learningMemory ∧
     (SelfHealingEngine.executeAction c7State c7Issue c7Action 5).issueStore =
      c7State.issueStore ∧
     (SelfHealingEngine.executeAction c7State c7Issue c7Action 5).stats.escalations =
      c7State.stats.escalations + 1 ∧
     (SelfHealingEngine.executeAction c7State c7Issue c7Action 5).stats.issuesResolved =
      c7State.stats.issuesResolved) ∧
    (SelfHealer.escalateIssue [("sh1", ({ id := "sh1", type := "sync_failure" } : SHIssue))]
        [] "sh1" "manual" 9 =
      Option.some
        (kvPut [("sh1", { id := "sh1", type := "sync_failure" })] "sh1"
          { id := "sh1", type := "sync_failure", escalated := true,
            escalatedAt := some 9, escalationReason := some "manual" },
         kvPut [] "learning_9"
           { id := "learning_9", issueType := "sync_failure",
             outcome := "escalated", resolution := none })) :=
  ⟨C7_escalation_effects.1 c7State c7Issue c7Action 5 rfl,
   ((C7_escalation_effects.2 [("sh1", { id := "sh1", type := "sync_failure" })]
      [] "sh1" "manual" 9 { id := "sh1", type := "sync_failure" }
      (by decide)).1)⟩

/-- C8 (amended): the backoff helper's delay before retry attempt `k`
is `base * 2^(k-1)` with no maximum cap — `nextDelay(1) = base`,
`nextDelay(2) = 2*base`, `nextDelay(3) = 4*base` — the retry guard of
the orchestrator's `processJob` is exactly `attempts < maxAttempts`,
and on an always-failing fresh job `processJob`'s slept delays
(`2^attempts * 1000`) coincide with `retryWithBackoff`'s delays at its
default base 2000. -/
theorem C8_backoff_formula :
    (∀ (errs : Nat → String) (m b : Nat),
        (retryWithBackoff (fun i => Except.error (errs i)) m b).2 =
          (List.range (m - 1)).map (fun i => b * 2 ^ i)) ∧
    (specNextDelay defaultBaseDelay 1 = defaultBaseDelay ∧
      specNextDelay defaultBaseDelay 2 = 2 * defaultBaseDelay ∧
      specNextDelay defaultBaseDelay 3 = 4 * defaultBaseDelay) ∧
    (∀ (errs : Nat → String) (b m k : Nat), 1 ≤ k → k < m →
        (retryWithBackoff (fun i => Except.error (errs i)) m b).2[k - 1]? =
          some (specNextDelay b k)) ∧
    (∀ job : PJob, processJobShouldRetry job =
        specShouldRetry job.attempts job.maxAttempts) ∧
    (∀ (errs : Nat → String) (id : String) (m : Nat),
        (processJob (fun i => Except.error (errs i))
            ({ id := id, maxAttempts := m } : PJob)).2 =
          (retryWithBackoff (fun i => Except.error (errs i)) m defaultBaseDelay).2) := by
  refine ⟨retryWithBackoff_allFail_delays, by decide, ?_, ?_, ?_⟩
  · intro errs b m k hk hkm
    rw [retryWithBackoff_allFail_delays, List.getElem?_map,
      List.getElem?_range (by omega : k - 1 < m - 1)]
    simp [specNextDelay]
  · intro job
    rfl
  · intro errs id m
    have hp := processJob_allFail errs { id := id, maxAttempts := m }
    have h2 := hp.2.2.2
    simp only at h2
    rw [h2, retryWithBackoff_allFail_delays]
    rw [List.range'_eq_map_range, List.map_map]
    refine congrArg (fun f => List.map f (List.range (m - 1))) (funext fun i => ?_)
    simp [defaultBaseDelay, pow_succ, pow_add]
    ring

/-- Witness for C8's amended theorem: the delay before the first, second
and third retries under the default configuration. -/
theorem C8_witness :
    (retryWithBackoff (fun i => Except.error ((fun _ => "err") i))
        defaultMaxRetries defaultBaseDelay).2[0]? = some (specNextDelay 2000 1) ∧
    (retryWithBackoff (fun i => Except.error ((fun _ => "err") i))
        defaultMaxRetries defaultBaseDelay).2[1]? = some (specNextDelay 2000 2) ∧
    (retryWithBackoff (fun i => Except.error ((fun _ => "err") i))
        defaultMaxRetries defaultBaseDelay).2[2]? = some (specNextDelay 2000 3) :=
  ⟨C8_backoff_formula.2.2.1 (fun _ => "err") 2000 4 1 (by decide) (by decide),
   C8_backoff_formula.2.2.1 (fun _ => "err") 2000 4 2 (by decide) (by decide),
   C8_backoff_formula.2.2.1 (fun _ => "err") 2000 4 3 (by decide) (by decide)⟩

/-- Counterexample for C8 as stated: the claim says the delay is capped
at a configurable maximum, but no cap exists anywhere in the retry
code — with the default base, the delay slept before retry attempt 32
is exactly `2000 * 2^31` ms (about 50 days), past any delay cap the
configuration surface could express (`retryWithBackoff` has no cap
parameter). -/
theorem C8_counterexample_no_delay_cap :
    (retryWithBackoff (fun i => Except.error ((fun _ => "err") i)) 33
        defaultBaseDelay).2[31]? = some (2000 * 2 ^ 31) ∧
    2000 * 2 ^ 31 > 1000 * 60 * 60 * 24 * 30 := by
  constructor
  · rw [retryWithBackoff_allFail_delays, List.getElem?_map,
      List.getElem?_range (by omega : 31 < 33 - 1)]
    simp [defaultBaseDelay]
  · norm_num

/-- A job-failure issue whose stored record is already resolved. -/
def c9Issue : Issue :=
  { id := "i9", type := .job_failure, severity := Severity.MEDIUM,
    description := "Job j9 failed: boom",
    context := { attempts := 3, severity := Severity.MEDIUM,
                 error := some "boom", jobId := some "j9",
                 jobType := some "custom" } }

def c9State : EngineState :=
  { issueStore := [("i9",
      { issue := c9Issue, detectedAt := some 0, resolved := some true,
        resolvedAt := some 1,
        resolution := some "Skipped after max attempts" })],
    learningMemory := [{ id := "learning_0", issueType := .job_failure,
                         outcome := "skipped", context := c9Issue.context }],
    stats := { issuesDetected := 1, issuesResolved := 1 },
    idCounter := 1 }

/-- Counterexample for C9 as stated: the stored record of `i9` already
has `resolved = true` and `issuesResolved = 1`, yet re-running
`handleIssue` on it lands in the SKIP branch again and increments
`issuesResolved` to 2 — the counter is double-counted. -/
theorem C9_counterexample_double_count :
    (kvGet c9State.issueStore "i9").map (fun st => st.resolved) =
      some (some true) ∧
    c9State.stats.issuesResolved = 1 ∧
    ((SelfHealingEngine.handleIssue c9State c9Issue 2).2).stats.issuesResolved = 2 := by
  refine ⟨by decide, rfl, ?_⟩
  have he : DecisionNode.evaluate jobFailureTree c9Issue.context =
      { matched := true,
        result := some { success := true, action := .skip,
                         message := "Skipping after max retries, creating learning" } } := by
    rw [evaluate_jobFailureTree]
    norm_num [c9Issue, Severity.CRITICAL, Severity.MEDIUM]
  have htype : decisionTrees c9Issue.type = some jobFailureTree := rfl
  simp only [SelfHealingEngine.handleIssue, htype, he,
    SelfHealingEngine.dispatchResult]
  simp [SelfHealingEngine.executeAction, SelfHealingEngine.markResolved,
    SelfHealingEngine.createLearning, c9State]

/-- C9 (amended): `handleIssue` never consults the stored `resolved`
flag — it unconditionally re-stores the issue with `resolved = false`
and re-executes the chosen action, so whenever the job-failure tree
selects SKIP (attempts >= 3, severity < critical) the `issuesResolved`
counter is incremented again, whatever the stored record says: with
respect to `issuesResolved`, re-running `handleIssue` on an
already-resolved issue is not idempotent. -/
theorem C9_handleIssue_not_idempotent (s : EngineState) (issue : Issue)
    (now : Nat) (htype : issue.type = IssueType.job_failure)
    (hatt : 3 ≤ issue.context.attempts)
    (hsev : issue.context.severity < Severity.CRITICAL) :
    ((SelfHealingEngine.handleIssue s issue now).2).stats.issuesResolved =
      s.stats.issuesResolved + 1 := by
  have he : DecisionNode.evaluate jobFailureTree issue.context =
      { matched := true,
        result := some { success := true, action := .skip,
                         message := "Skipping after max retries, creating learning" } } := by
    rw [evaluate_jobFailureTree]
    rw [if_neg (by omega), if_pos hsev]
  simp [SelfHealingEngine.handleIssue, decisionTrees, htype, he,
    SelfHealingEngine.dispatchResult, SelfHealingEngine.executeAction,
    SelfHealingEngine.markResolved, SelfHealingEngine.createLearning]

/-- Witness for C9's amended theorem on the concrete already-resolved
state: `issuesResolved` goes from 1 to 2. -/
theorem C9_witness :
    ((SelfHealingEngine.handleIssue c9State c9Issue 2).2).stats.issuesResolved =
      c9State.stats.issuesResolved + 1 :=
  C9_handleIssue_not_idempotent c9State c9Issue 2 rfl (by decide) (by decide)
